import Mathlib

/-!
# Verification of the dutch-school-finder geometric and transportation core

Shallow embedding of `backend/app/distance.py`, `backend/app/transportation_service.py`
and `search_schools_by_proximity` from `backend/app/crud.py`, together with theorems
settling the specification claims about them.

Conventions of the embedding:
* Python floats are modelled as exact rationals (`ℚ`) where the code only does
  field arithmetic and comparisons, and as real numbers (`ℝ`) where the code
  calls trigonometric functions (`math.sin`, `math.cos`, `math.atan2`, `math.sqrt`).
* Python `int(x)` truncates toward zero; it is modelled by `pyInt` / `pyIntR`.
* Python `round(x)` (and the rounding inside `round(x, 2)` and `f"{x:.1f}"`)
  rounds half to even; it is modelled by `pyRound`.
* Python dictionaries built by the transportation service are modelled by the
  structure `Route`; keys that a given route does not set are `none`.
-/

/-- Python `int(q)`: truncation toward zero. -/
def pyInt (q : ℚ) : ℤ :=
  if q < 0 then ⌈q⌉ else ⌊q⌋

/-- Python `round(q)`: round half to even (banker's rounding). -/
def pyRound (q : ℚ) : ℤ :=
  if Int.fract q < 1 / 2 then ⌊q⌋
  else if 1 / 2 < Int.fract q then ⌊q⌋ + 1
  else if ⌊q⌋ % 2 = 0 then ⌊q⌋ else ⌊q⌋ + 1

/-- Python `round(q, 2)`: round to two decimal places. -/
def pyRound2 (q : ℚ) : ℚ :=
  (pyRound (q * 100) : ℚ) / 100

/-- `distance.py`, `format_distance`: the one-decimal rendering used by
`f"{distance_km:.1f}"` (for the values reached in the `else` branch,
i.e. `1.0 ≤ km`). -/
def oneDecimalRepr (q : ℚ) : String :=
  let n := pyRound (q * 10)
  toString (n / 10) ++ "." ++ toString ((n % 10).natAbs)

/-- `distance.py`, `format_distance(distance_km)`:
`if distance_km < 1.0: return f"{int(distance_km * 1000)} m"`
`else: return f"{distance_km:.1f} km"`. -/
def format_distance (distance_km : ℚ) : String :=
  if distance_km < 1 then toString (pyInt (distance_km * 1000)) ++ " m"
  else oneDecimalRepr distance_km ++ " km"

/-!
## `transportation_service.py`

The estimators take the straight-line `distance_km` (in the source it is the
haversine distance, computed before any of the logic modelled here) and build
route dictionaries.  No API keys are configured in the model, so
`calculate_public_transit_route` always falls through to the estimator, as the
source does when `NINETY_TWO_API_KEY` and `NS_API_KEY` are both empty.
-/

/-- The `school_bus_info` dictionary passed by callers. -/
structure BusInfo where
  route_name : Option String
  pickup_time : Option String
  pickup_location : Option String
deriving DecidableEq

/-- A route dictionary produced by `TransportationService`.  Keys that a given
route never sets are modelled as `none`. -/
structure Route where
  mode : String
  distance_km : Option ℚ := none
  duration_minutes : Option ℤ := none
  icon : String
  display : String
  transit_type : Option String := none
  lines : Option (List String) := none
  transfers : Option ℕ := none
  wait_time_minutes : Option ℕ := none
  bus_route_name : Option String := none
  bus_pickup_time : Option String := none
  bus_pickup_location : Option String := none
  morning_commute_minutes : Option ℤ := none
deriving DecidableEq

/-- `calculate_walking_time(distance_km)`: speed 5 km/h, `None` for
`distance_km <= 0`. -/
def calculate_walking_time (distance_km : ℚ) : Option Route :=
  if distance_km ≤ 0 then none
  else
    let duration_minutes := pyInt (distance_km / 5 * 60)
    some { mode := "walking", distance_km := some (pyRound2 distance_km),
           duration_minutes := some duration_minutes, icon := "🚶",
           display := "🚶 " ++ toString duration_minutes ++ " min walk" }

/-- `calculate_cycling_time(distance_km)`: speed 15 km/h, `None` for
`distance_km <= 0`. -/
def calculate_cycling_time (distance_km : ℚ) : Option Route :=
  if distance_km ≤ 0 then none
  else
    let duration_minutes := pyInt (distance_km / 15 * 60)
    some { mode := "cycling", distance_km := some (pyRound2 distance_km),
           duration_minutes := some duration_minutes, icon := "🚴",
           display := "🚴 " ++ toString duration_minutes ++ " min by bike" }

/-- `calculate_driving_time(distance_km)`: speed 30 km/h, `None` for
`distance_km <= 0`. -/
def calculate_driving_time (distance_km : ℚ) : Option Route :=
  if distance_km ≤ 0 then none
  else
    let duration_minutes := pyInt (distance_km / 30 * 60)
    some { mode := "driving", distance_km := some (pyRound2 distance_km),
           duration_minutes := some duration_minutes, icon := "🚗",
           display := "🚗 " ++ toString duration_minutes ++ " min drive" }

/-- `_estimate_public_transit(distance_km)`: the three distance bands. -/
def estimate_public_transit (distance_km : ℚ) : Option Route :=
  if distance_km < 2 then none
  else if distance_km < 5 then
    let travel_time := pyInt (distance_km / 20 * 60)
    let total_time := travel_time + 5
    some { mode := "public_transit", distance_km := some (pyRound2 distance_km),
           duration_minutes := some total_time, icon := "🚌",
           transit_type := some ("bus_tram"),
           display := "🚌 " ++ toString total_time ++ " min (bus/tram)",
           lines := some (["Estimated route"]), transfers := some 0,
           wait_time_minutes := some 5 }
  else if distance_km < 15 then
    let travel_time := pyInt (distance_km / 25 * 60)
    let total_time := travel_time + 8
    some { mode := "public_transit", distance_km := some (pyRound2 distance_km),
           duration_minutes := some total_time, icon := "🚇",
           transit_type := some ("bus_metro"),
           display := "🚇 " ++ toString total_time ++ " min (metro/bus)",
           lines := some (["Metro or bus line"]), transfers := some 1,
           wait_time_minutes := some 8 }
  else
    let travel_time := pyInt (distance_km / 40 * 60)
    let total_time := travel_time + 10
    some { mode := "public_transit", distance_km := some (pyRound2 distance_km),
           duration_minutes := some total_time, icon := "🚂",
           transit_type := some ("train"),
           display := "🚂 " ++ toString total_time ++ " min (train + bus)",
           lines := some (["NS Train line + local transport"]), transfers := some 1,
           wait_time_minutes := some 10 }

/-- `calculate_public_transit_route`: with no API keys configured every branch
reduces to `_estimate_public_transit`; the haversine distance between the two
coordinate pairs is the `distance_km` argument here. -/
def calculate_public_transit_route (distance_km : ℚ) : Option Route :=
  if distance_km ≤ 0 then none
  else estimate_public_transit distance_km

/-- The school-bus dictionary appended by `calculate_all_routes` when
`include_school_bus and school_bus_info` holds. -/
def schoolBusRoute (info : BusInfo) : Route :=
  { mode := "school_bus", icon := "🚌",
    display := "🚌 School bus available",
    bus_route_name := info.route_name,
    bus_pickup_time := info.pickup_time,
    bus_pickup_location := info.pickup_location }

/-- The sort key `x.get("duration_minutes", float("inf"))`. -/
def sortKey (r : Route) : WithTop ℤ :=
  match r.duration_minutes with
  | some n => (n : WithTop ℤ)
  | none => ⊤

/-- Comparison by duration, the order used by `regular_routes.sort`. -/
def routeLE (a b : Route) : Prop :=
  sortKey a ≤ sortKey b

instance : DecidableRel routeLE := fun a b =>
  inferInstanceAs (Decidable (sortKey a ≤ sortKey b))

instance : IsTotal Route routeLE :=
  ⟨fun a b => le_total (sortKey a) (sortKey b)⟩

instance : IsTrans Route routeLE :=
  ⟨fun _ _ _ hab hbc => le_trans hab hbc⟩

/-- Walking entry of the `routes` list: kept only when at most a 45 minute
walk.  The `duration_minutes` key is always present on a walking route, so
the dead `none` branch is never taken. -/
def walkPart (distance_km : ℚ) : List Route :=
  match calculate_walking_time distance_km with
  | some w =>
    match w.duration_minutes with
    | some n => if n ≤ 45 then [w] else []
    | none => []
  | none => []

/-- Cycling entry of the `routes` list: kept only when at most 60 minutes. -/
def cyclePart (distance_km : ℚ) : List Route :=
  match calculate_cycling_time distance_km with
  | some c =>
    match c.duration_minutes with
    | some n => if n ≤ 60 then [c] else []
    | none => []
  | none => []

/-- Public-transit entry of the `routes` list. -/
def transitPart (distance_km : ℚ) : List Route :=
  match calculate_public_transit_route distance_km with
  | some t => [t]
  | none => []

/-- Driving entry of the `routes` list (no threshold). -/
def drivePart (distance_km : ℚ) : List Route :=
  match calculate_driving_time distance_km with
  | some dr => [dr]
  | none => []

/-- School-bus entry, appended when `include_school_bus and school_bus_info`. -/
def busPart (include_school_bus : Bool) (school_bus_info : Option BusInfo) :
    List Route :=
  if include_school_bus then
    match school_bus_info with
    | some info => [schoolBusRoute info]
    | none => []
  else []

/-- The `routes` list of `calculate_all_routes` just before partitioning. -/
def pre_routes (distance_km : ℚ) (include_school_bus : Bool)
    (school_bus_info : Option BusInfo) : List Route :=
  walkPart distance_km ++ cyclePart distance_km ++ transitPart distance_km ++
    drivePart distance_km ++ busPart include_school_bus school_bus_info

/-- `calculate_all_routes`: build the candidate list, split off school-bus
entries, sort the rest ascending by duration, and append the school-bus
entries at the end. -/
def calculate_all_routes (distance_km : ℚ) (include_school_bus : Bool)
    (school_bus_info : Option BusInfo) : List Route :=
  let routes := pre_routes distance_km include_school_bus school_bus_info
  let regular_routes := routes.filter (fun r => r.mode ≠ "school_bus")
  let school_bus_routes := routes.filter (fun r => r.mode = "school_bus")
  List.insertionSort routeLE regular_routes ++ school_bus_routes

/-- `calculate_morning_commute_time(base_duration_minutes, departure_time)`.
The departure time only enters through its hour; `datetime.now().replace(hour=8)`
has hour 8, so a missing departure time means hour 8.  The float literals
`1.25` and `1.15` are the rationals `5/4` and `23/20`. -/
def calculate_morning_commute_time (base_duration_minutes : ℤ)
    (departure_hour : Option ℕ) : ℤ :=
  let hour := departure_hour.getD 8
  if 7 ≤ hour ∧ hour ≤ 9 then pyInt ((base_duration_minutes : ℚ) * (5 / 4))
  else if 6 ≤ hour ∧ hour ≤ 10 then pyInt ((base_duration_minutes : ℚ) * (23 / 20))
  else base_duration_minutes

/-- Loop body of `get_transportation_for_school`: when a route carries a
duration and is not the school bus, attach `morning_commute_minutes` (no
departure time is passed, so hour 8 is assumed) and extend the display. -/
def attach_morning (route : Route) : Route :=
  match route.duration_minutes with
  | some n =>
    if route.mode ≠ "school_bus" then
      let morning_time := calculate_morning_commute_time n none
      { route with
        morning_commute_minutes := some morning_time,
        display :=
          if morning_time ≠ n then
            route.display ++ " (morning: " ++ toString morning_time ++ " min)"
          else route.display }
    else route
  | none => route

/-- `get_transportation_for_school`: aggregate all routes (for the already
computed haversine distance) and attach the morning-commute adjustment to
every non-school-bus route that carries a duration. -/
def get_transportation_for_school (distance_km : ℚ) (include_school_bus : Bool)
    (school_bus_info : Option BusInfo) : List Route :=
  let routes := calculate_all_routes distance_km include_school_bus school_bus_info
  routes.map attach_morning

/-- A concrete `school_bus_info` payload used to instantiate theorems. -/
def sampleBusInfo : BusInfo :=
  { route_name := some ("Route B"), pickup_time := some ("8:15 AM"),
    pickup_location := some ("Main Street") }

/-- The driving route produced at distance 0.5 km. -/
def driveHalf : Route :=
  { mode := "driving", distance_km := some (pyRound2 (1 / 2)),
    duration_minutes := some (pyInt ((1 : ℚ) / 2 / 30 * 60)), icon := "🚗",
    display := "🚗 " ++ toString (pyInt ((1 : ℚ) / 2 / 30 * 60)) ++ " min drive" }

/-!
## `distance.py`: haversine distance and bounding box (over `ℝ`)
-/

/-- `math.radians(x)`: degrees to radians. -/
noncomputable def radians (x : ℝ) : ℝ :=
  x * Real.pi / 180

/-- `math.atan2(y, x)`, the two-argument arctangent. -/
noncomputable def atan2 (y x : ℝ) : ℝ :=
  if 0 < x then Real.arctan (y / x)
  else if x < 0 ∧ 0 ≤ y then Real.arctan (y / x) + Real.pi
  else if x < 0 then Real.arctan (y / x) - Real.pi
  else if 0 < y then Real.pi / 2
  else if y < 0 then -(Real.pi / 2)
  else 0

/-- `distance.py`, `haversine_distance(lat1, lon1, lat2, lon2)`: great-circle
distance with Earth radius 6371 km.  The square-root argument `1 - a` is
used exactly as in the source (no clamping appears there). -/
noncomputable def haversine_distance (lat1 lon1 lat2 lon2 : ℝ) : ℝ :=
  let R : ℝ := 6371
  let lat1_rad := radians lat1
  let lon1_rad := radians lon1
  let lat2_rad := radians lat2
  let lon2_rad := radians lon2
  let dlat := lat2_rad - lat1_rad
  let dlon := lon2_rad - lon1_rad
  let a := Real.sin (dlat / 2) ^ 2 +
    Real.cos lat1_rad * Real.cos lat2_rad * Real.sin (dlon / 2) ^ 2
  let c := 2 * atan2 (Real.sqrt a) (Real.sqrt (1 - a))
  R * c

/-- The 4-tuple `(min_lat, max_lat, min_lon, max_lon)` returned by
`calculate_bounding_box`. -/
structure BoundingBox where
  min_lat : ℝ
  max_lat : ℝ
  min_lon : ℝ
  max_lon : ℝ

/-- `distance.py`, `calculate_bounding_box(lat, lon, distance_km)`. -/
noncomputable def calculate_bounding_box (lat lon distance_km : ℝ) : BoundingBox :=
  let lat_degrees_per_km : ℝ := 1 / 111
  let lon_degrees_per_km : ℝ := 1 / (111 * Real.cos (radians lat))
  let lat_offset := distance_km * lat_degrees_per_km
  let lon_offset := distance_km * lon_degrees_per_km
  { min_lat := lat - lat_offset, max_lat := lat + lat_offset,
    min_lon := lon - lon_offset, max_lon := lon + lon_offset }

/-- The bounding-box filter used by `search_schools_by_proximity` in
`crud.py`: latitude and longitude both between the box bounds. -/
def in_bounding_box (b : BoundingBox) (lat lon : ℝ) : Prop :=
  b.min_lat ≤ lat ∧ lat ≤ b.max_lat ∧ b.min_lon ≤ lon ∧ lon ≤ b.max_lon

/-!
## `crud.py`: `search_schools_by_proximity`

The SQL query is modelled as list processing over an in-memory candidate
set.  Candidates are modelled with coordinates present: rows whose
`latitude`/`longitude` are NULL are excluded by the SQL bounding-box
comparison (and the explicit `isnot(None)` filter) before any distance is
computed, so they never reach the part of the pipeline the claims are
about.  Pass-through record fields that no claim inspects (address, phone,
email, ...) are represented by the `name` field.
-/

/-- A school row with coordinates. -/
structure School where
  id : ℕ
  name : String
  school_type : Option String
  inspection_score : Option ℚ
  is_bilingual : Bool
  is_international : Bool
  latitude : ℝ
  longitude : ℝ

/-- The filter parameters of `SchoolSearchParams` used by
`search_schools_by_proximity` (`limit` is validated to `ge=1, le=500`). -/
structure SchoolSearchParams where
  school_type : Option String := none
  min_rating : Option ℚ := none
  bilingual : Option Bool := none
  international : Option Bool := none
  limit : ℕ := 100

/-- Python truthiness of an optional string (`if params.school_type:`). -/
def truthy_str : Option String → Bool
  | none => false
  | some t => !t.isEmpty

/-- Python truthiness of an optional float (`if params.min_rating:`). -/
def truthy_rat : Option ℚ → Bool
  | none => false
  | some r => r != 0

/-- Python truthiness of an optional bool (`if params.bilingual:`). -/
def truthy_bool : Option Bool → Bool
  | none => false
  | some b => b

/-- A conditionally applied query filter (`if cond: query = query.filter(...)`). -/
def condFilter (cond : Bool) (q : School → Bool) (l : List School) : List School :=
  if cond then l.filter q else l

/-- SQL `lower(School.school_type) == lower(t)`; a NULL column never
matches. -/
def type_matches (a : Option String) (t : String) : Bool :=
  match a with
  | some st => st.toLower == t.toLower
  | none => false

/-- SQL `School.inspection_score >= r`; a NULL column never matches. -/
def score_at_least (a : Option ℚ) (r : ℚ) : Bool :=
  match a with
  | some sc => r ≤ sc
  | none => false

/-- The four attribute filters of `search_schools_by_proximity`, applied in
source order. -/
def applyFilters (p : SchoolSearchParams) (l : List School) : List School :=
  let l1 := condFilter (truthy_str p.school_type)
    (fun s => type_matches s.school_type (p.school_type.getD "")) l
  let l2 := condFilter (truthy_rat p.min_rating)
    (fun s => score_at_least s.inspection_score (p.min_rating.getD 0)) l1
  let l3 := condFilter (truthy_bool p.bilingual) (fun s => s.is_bilingual) l2
  let l4 := condFilter (truthy_bool p.international)
    (fun s => s.is_international) l3
  l4

/-- Python `int(x)` on a real, truncation toward zero. -/
noncomputable def pyIntR (x : ℝ) : ℤ :=
  if x < 0 then ⌈x⌉ else ⌊x⌋

/-- The rounding of `round(x)` on a real: half to even. -/
noncomputable def pyRoundR (x : ℝ) : ℤ :=
  if Int.fract x < 1 / 2 then ⌊x⌋
  else if 1 / 2 < Int.fract x then ⌊x⌋ + 1
  else if ⌊x⌋ % 2 = 0 then ⌊x⌋ else ⌊x⌋ + 1

/-- Python `round(x, 2)` on a real. -/
noncomputable def pyRound2R (x : ℝ) : ℝ :=
  (pyRoundR (x * 100) : ℝ) / 100

/-- `format_distance` applied to the real-valued haversine distance
(same rendering as the rational `format_distance`). -/
noncomputable def format_distance_r (x : ℝ) : String :=
  if x < 1 then toString (pyIntR (x * 1000)) ++ " m"
  else
    (toString (pyRoundR (x * 10) / 10) ++ "." ++
      toString ((pyRoundR (x * 10) % 10).natAbs)) ++ " km"

/-- The `SchoolWithDistance` record built for each surviving school:
the school's fields plus `distance_km = round(distance, 2)` and
`distance_formatted = format_distance(distance)`. -/
structure SchoolWithDistance where
  id : ℕ
  name : String
  latitude : ℝ
  longitude : ℝ
  distance_km : ℝ
  distance_formatted : String

/-- One `SchoolWithDistance` entry for school `s` as seen from the search
center. -/
noncomputable def scored_result (lat lon : ℝ) (s : School) : SchoolWithDistance :=
  let distance := haversine_distance lat lon s.latitude s.longitude
  { id := s.id, name := s.name, latitude := s.latitude,
    longitude := s.longitude, distance_km := pyRound2R distance,
    distance_formatted := format_distance_r distance }

/-- Ascending comparison on the `distance_km` key, as used by
`schools_with_distance.sort(key=lambda s: s.distance_km)`. -/
def resultLE (a b : SchoolWithDistance) : Prop :=
  a.distance_km ≤ b.distance_km

noncomputable instance : DecidableRel resultLE := fun a b =>
  Classical.propDecidable (resultLE a b)

instance : IsTotal SchoolWithDistance resultLE :=
  ⟨fun a b => le_total a.distance_km b.distance_km⟩

instance : IsTrans SchoolWithDistance resultLE :=
  ⟨fun _ _ _ hab hbc => le_trans hab hbc⟩

open Classical in
/-- `crud.py`, `search_schools_by_proximity`: attribute filters, bounding-box
pre-filter, exact haversine distance filter (`distance <= radius_km`),
wrapping as `SchoolWithDistance`, ascending sort by `distance_km`, and
truncation to `params.limit`. -/
noncomputable def search_schools_by_proximity (candidates : List School)
    (params : SchoolSearchParams) (latitude longitude radius_km : ℝ) :
    List SchoolWithDistance :=
  let filtered := applyFilters params candidates
  let box := calculate_bounding_box latitude longitude radius_km
  let boxed := filtered.filter
    (fun s => decide (in_bounding_box box s.latitude s.longitude))
  let surviving := boxed.filter
    (fun s => decide (haversine_distance latitude longitude s.latitude s.longitude ≤ radius_km))
  let schools_with_distance := surviving.map (scored_result latitude longitude)
  let sorted := List.insertionSort resultLE schools_with_distance
  sorted.take params.limit

/-- A concrete candidate row used to instantiate the search theorem. -/
def sampleSchool : School :=
  { id := 1, name := "School A", school_type := none, inspection_score := none,
    is_bilingual := false, is_international := false, latitude := 0,
    longitude := 0 }

/-- Concrete search parameters used to instantiate the search theorem. -/
def sampleParams : SchoolSearchParams :=
  { limit := 5 }

theorem pyInt_of_nonneg {q : ℚ} (h : 0 ≤ q) : pyInt q = ⌊q⌋ := by
  unfold pyInt
  rw [if_neg (not_lt.mpr h)]

/-- C9 counterexample: at `km = 0.9996` the code renders the truncation
`int(999.6) = 999`, not the claimed `round(999.6) = 1000`. -/
theorem format_distance_not_round_cex :
    format_distance (2499 / 2500) = "999 m" ∧
    round ((2499 / 2500 : ℚ) * 1000) = 1000 ∧
    format_distance (2499 / 2500) ≠ toString (round ((2499 / 2500 : ℚ) * 1000)) ++ " m" := by
  have h1 : format_distance (2499 / 2500) = "999 m" := by
    norm_num [format_distance, pyInt, Int.floor_eq_iff]
    rfl
  have h2 : round ((2499 / 2500 : ℚ) * 1000) = 1000 := by
    norm_num [round_eq, Int.floor_eq_iff]
  refine ⟨h1, h2, ?_⟩
  rw [h1, h2]
  decide

/-- C9 (amended): for `0 ≤ km < 1`, `format_distance` renders the *floor*
(= Python `int` truncation) of `km·1000` followed by `" m"`; the three
boundary examples from the spec hold as stated. -/
theorem format_distance_spec :
    (∀ km : ℚ, 0 ≤ km → km < 1 →
      format_distance km = toString ⌊km * 1000⌋ ++ " m") ∧
    format_distance (1 / 2) = "500 m" ∧
    format_distance 1 = "1.0 km" ∧
    format_distance (999 / 1000) = "999 m" := by
  refine ⟨?_, ?_, ?_, ?_⟩
  · intro km h0 h1
    rw [format_distance, if_pos h1, pyInt_of_nonneg (by positivity)]
  · norm_num [format_distance, pyInt, Int.floor_eq_iff]
    rfl
  · norm_num [format_distance, oneDecimalRepr, pyRound, Int.fract, Int.floor_eq_iff]
    rfl
  · norm_num [format_distance, pyInt, Int.floor_eq_iff]
    rfl

/-- C9 witness: the amended theorem applied at `km = 1/2`. -/
theorem format_distance_spec_witness :
    format_distance (1 / 2) = toString ⌊((1 : ℚ) / 2) * 1000⌋ ++ " m" :=
  format_distance_spec.1 (1 / 2) (by norm_num) (by norm_num)

/-!
## Claims C2-C5: the estimators
-/

theorem pyInt_cast_mul_div (a n d : ℕ) :
    pyInt ((a : ℚ) * ((n : ℚ) / (d : ℚ))) = ((n * a) / d : ℕ) := by
  rw [pyInt_of_nonneg (by positivity)]
  rw [show (a : ℚ) * ((n : ℚ) / (d : ℚ)) = (((n * a : ℕ) : ℤ) : ℚ) / ((d : ℕ) : ℚ) by
    push_cast; ring]
  rw [Rat.floor_intCast_div_natCast]
  exact_mod_cast rfl

/-- C2 counterexample: at distance `0` every estimator returns `None`
(an absent entry), not a zero-duration estimate. -/
theorem zero_distance_absent_cex :
    calculate_walking_time 0 = none ∧ calculate_cycling_time 0 = none ∧
    calculate_driving_time 0 = none ∧ calculate_public_transit_route 0 = none := by
  refine ⟨?_, ?_, ?_, ?_⟩ <;>
    simp [calculate_walking_time, calculate_cycling_time, calculate_driving_time,
      calculate_public_transit_route]

/-- C2 (amended): for zero or negative distance the walking, cycling, driving
and public-transit estimators all return `None`, and the aggregate route list
is empty (or contains only the school-bus entry) rather than raising an
error. -/
theorem zero_distance_routes (d : ℚ) (hd : d ≤ 0) :
    calculate_walking_time d = none ∧ calculate_cycling_time d = none ∧
    calculate_driving_time d = none ∧ calculate_public_transit_route d = none ∧
    calculate_all_routes d false none = [] ∧
    (∀ info, calculate_all_routes d true (some info) = [schoolBusRoute info]) := by
  have hw : calculate_walking_time d = none := by
    rw [calculate_walking_time, if_pos hd]
  have hc : calculate_cycling_time d = none := by
    rw [calculate_cycling_time, if_pos hd]
  have hdr : calculate_driving_time d = none := by
    rw [calculate_driving_time, if_pos hd]
  have ht : calculate_public_transit_route d = none := by
    rw [calculate_public_transit_route, if_pos hd]
  have hpre : ∀ incl info, pre_routes d incl info = busPart incl info := by
    intro incl info
    simp [pre_routes, walkPart, cyclePart, transitPart, drivePart, hw, hc, hdr, ht]
  refine ⟨hw, hc, hdr, ht, ?_, ?_⟩
  · simp [calculate_all_routes, hpre, busPart, List.insertionSort]
  · intro info
    simp [calculate_all_routes, hpre, busPart, schoolBusRoute, List.insertionSort,
      List.filter]

/-- C2 witness: the amended theorem applied at distance `0`. -/
theorem zero_distance_routes_witness :
    calculate_walking_time 0 = none ∧ calculate_all_routes 0 false none = [] :=
  ⟨(zero_distance_routes 0 le_rfl).1, (zero_distance_routes 0 le_rfl).2.2.2.2.1⟩

/-- C3 counterexample: at `distance_km = 0.3` the walking estimator returns
`int(3.6) = 3` minutes, not the claimed `round(3.6) = 4`. -/
theorem duration_not_round_cex :
    (calculate_walking_time (3 / 10)).map (fun r => r.duration_minutes) =
      some (some 3) ∧
    round ((3 / 10 : ℚ) / 5 * 60) = 4 := by
  constructor
  · have h : ¬((3 / 10 : ℚ) ≤ 0) := by norm_num
    rw [calculate_walking_time, if_neg h]
    norm_num [pyInt, Int.floor_eq_iff]
  · norm_num [round_eq, Int.floor_eq_iff]

/-- C3 (amended): for every positive distance the walking, cycling and
driving estimators return the *floor* (Python `int` truncation) of
`distance/speed · 60`, and each transit band returns the floor of
`distance/speed · 60` plus its fixed wait. -/
theorem duration_uses_truncation (d : ℚ) (hd : 0 < d) :
    (calculate_walking_time d).map (fun r => r.duration_minutes) =
      some (some ⌊d / 5 * 60⌋) ∧
    (calculate_cycling_time d).map (fun r => r.duration_minutes) =
      some (some ⌊d / 15 * 60⌋) ∧
    (calculate_driving_time d).map (fun r => r.duration_minutes) =
      some (some ⌊d / 30 * 60⌋) ∧
    (2 ≤ d → d < 5 →
      (estimate_public_transit d).map (fun r => r.duration_minutes) =
        some (some (⌊d / 20 * 60⌋ + 5))) ∧
    (5 ≤ d → d < 15 →
      (estimate_public_transit d).map (fun r => r.duration_minutes) =
        some (some (⌊d / 25 * 60⌋ + 8))) ∧
    (15 ≤ d →
      (estimate_public_transit d).map (fun r => r.duration_minutes) =
        some (some (⌊d / 40 * 60⌋ + 10))) := by
  have hd' : ¬(d ≤ 0) := not_le.mpr hd
  refine ⟨?_, ?_, ?_, ?_, ?_, ?_⟩
  · rw [calculate_walking_time, if_neg hd']
    simp [pyInt_of_nonneg (show (0 : ℚ) ≤ d / 5 * 60 by positivity)]
  · rw [calculate_cycling_time, if_neg hd']
    simp [pyInt_of_nonneg (show (0 : ℚ) ≤ d / 15 * 60 by positivity)]
  · rw [calculate_driving_time, if_neg hd']
    simp [pyInt_of_nonneg (show (0 : ℚ) ≤ d / 30 * 60 by positivity)]
  · intro h2 h5
    rw [estimate_public_transit, if_neg (not_lt.mpr h2), if_pos h5]
    simp [pyInt_of_nonneg (show (0 : ℚ) ≤ d / 20 * 60 by positivity)]
  · intro h5 h15
    rw [estimate_public_transit,
      if_neg (not_lt.mpr (le_trans (by norm_num) h5)),
      if_neg (not_lt.mpr h5), if_pos h15]
    simp [pyInt_of_nonneg (show (0 : ℚ) ≤ d / 25 * 60 by positivity)]
  · intro h15
    rw [estimate_public_transit,
      if_neg (not_lt.mpr (le_trans (by norm_num) h15)),
      if_neg (not_lt.mpr (le_trans (by norm_num) h15)),
      if_neg (not_lt.mpr h15)]
    simp [pyInt_of_nonneg (show (0 : ℚ) ≤ d / 40 * 60 by positivity)]

/-- C3 witness: the amended theorem applied at `d = 3` (walking formula and
the bus/tram transit band). -/
theorem duration_uses_truncation_witness :
    (calculate_walking_time 3).map (fun r => r.duration_minutes) =
      some (some ⌊(3 : ℚ) / 5 * 60⌋) ∧
    (estimate_public_transit 3).map (fun r => r.duration_minutes) =
      some (some (⌊(3 : ℚ) / 20 * 60⌋ + 5)) :=
  ⟨(duration_uses_truncation 3 (by norm_num)).1,
   (duration_uses_truncation 3 (by norm_num)).2.2.2.1 (by norm_num) (by norm_num)⟩

/-- C4: the transit estimate is absent exactly when `distance_km < 2`; the
three bands get the claimed classification, speed formula, fixed wait and
transfer count. -/
theorem transit_bands (d : ℚ) :
    (estimate_public_transit d = none ↔ d < 2) ∧
    (2 ≤ d → d < 5 →
      (estimate_public_transit d).map
          (fun r => (r.transit_type, r.duration_minutes, r.transfers,
            r.wait_time_minutes)) =
        some (some ("bus_tram"), some (pyInt (d / 20 * 60) + 5), some 0, some 5)) ∧
    (5 ≤ d → d < 15 →
      (estimate_public_transit d).map
          (fun r => (r.transit_type, r.duration_minutes, r.transfers,
            r.wait_time_minutes)) =
        some (some ("bus_metro"), some (pyInt (d / 25 * 60) + 8), some 1, some 8)) ∧
    (15 ≤ d →
      (estimate_public_transit d).map
          (fun r => (r.transit_type, r.duration_minutes, r.transfers,
            r.wait_time_minutes)) =
        some (some ("train"), some (pyInt (d / 40 * 60) + 10), some 1, some 10)) := by
  refine ⟨?_, ?_, ?_, ?_⟩
  · rw [estimate_public_transit]
    split_ifs with h1 h2 h3 <;> simp [h1]
  · intro h2 h5
    rw [estimate_public_transit, if_neg (not_lt.mpr h2), if_pos h5]
    simp
  · intro h5 h15
    rw [estimate_public_transit,
      if_neg (not_lt.mpr (le_trans (by norm_num) h5)),
      if_neg (not_lt.mpr h5), if_pos h15]
    simp
  · intro h15
    rw [estimate_public_transit,
      if_neg (not_lt.mpr (le_trans (by norm_num) h15)),
      if_neg (not_lt.mpr (le_trans (by norm_num) h15)),
      if_neg (not_lt.mpr h15)]
    simp

/-- C4 witness: the band theorem applied at `d = 3` (absence iff, and the
bus/tram band). -/
theorem transit_bands_witness :
    (estimate_public_transit 3 = none ↔ (3 : ℚ) < 2) ∧
    (estimate_public_transit 3).map
        (fun r => (r.transit_type, r.duration_minutes, r.transfers,
          r.wait_time_minutes)) =
      some (some ("bus_tram"), some (pyInt ((3 : ℚ) / 20 * 60) + 5), some 0, some 5) :=
  ⟨(transit_bands 3).1, (transit_bands 3).2.1 (by norm_num) (by norm_num)⟩

/-- C5 counterexample: at `base_minutes = 3` during rush hour (hour 8) the
code returns `int(3.75) = 3`, not the claimed `round(3.75) = 4`. -/
theorem morning_commute_not_round_cex :
    calculate_morning_commute_time 3 (some 8) = 3 ∧
    round ((3 : ℚ) * (5 / 4)) = 4 := by
  constructor
  · rw [calculate_morning_commute_time]
    norm_num [pyInt, Int.floor_eq_iff]
  · norm_num [round_eq, Int.floor_eq_iff]

/-- C5 (amended): the rush-hour adjustment is the *floor* (Python `int`
truncation) of `base · 1.25` for hours in `[7,9]`, the floor of
`base · 1.15` for hours in `[6,10]` outside `[7,9]`, and `base` otherwise;
a missing departure hour is taken to be 8, and the result depends only on
the hour. -/
theorem morning_commute_uses_truncation (base : ℕ) (hr : Option ℕ) :
    calculate_morning_commute_time (base : ℤ) hr =
      (if 7 ≤ hr.getD 8 ∧ hr.getD 8 ≤ 9 then (((5 * base) / 4 : ℕ) : ℤ)
       else if 6 ≤ hr.getD 8 ∧ hr.getD 8 ≤ 10 then (((23 * base) / 20 : ℕ) : ℤ)
       else (base : ℤ)) := by
  simp only [calculate_morning_commute_time]
  split_ifs with h1 h2
  · rw [show (((base : ℕ) : ℤ) : ℚ) * (5 / 4 : ℚ) =
        (base : ℚ) * (((5 : ℕ) : ℚ) / ((4 : ℕ) : ℚ)) by push_cast; ring]
    rw [pyInt_cast_mul_div]
  · rw [show (((base : ℕ) : ℤ) : ℚ) * (23 / 20 : ℚ) =
        (base : ℚ) * (((23 : ℕ) : ℚ) / ((20 : ℕ) : ℚ)) by push_cast; ring]
    rw [pyInt_cast_mul_div]
  · rfl

/-!
## Claims C6 and C10: the aggregation pipeline
-/

theorem pyInt_nonneg {q : ℚ} (h : 0 ≤ q) : 0 ≤ pyInt q := by
  rw [pyInt_of_nonneg h]
  exact Int.le_floor.mpr (by exact_mod_cast h)

theorem walking_some {d : ℚ} {r : Route} (h : calculate_walking_time d = some r) :
    r.mode = "walking" ∧ ∃ n : ℤ, r.duration_minutes = some n ∧ 0 ≤ n := by
  rw [calculate_walking_time] at h
  split_ifs at h with hc
  have h' := Option.some.inj h
  subst h'
  refine ⟨rfl, pyInt (d / 5 * 60), rfl, ?_⟩
  have hd : (0 : ℚ) ≤ d := (not_le.mp hc).le
  exact pyInt_nonneg (mul_nonneg (div_nonneg hd (by norm_num)) (by norm_num))

theorem cycling_some {d : ℚ} {r : Route} (h : calculate_cycling_time d = some r) :
    r.mode = "cycling" ∧ ∃ n : ℤ, r.duration_minutes = some n ∧ 0 ≤ n := by
  rw [calculate_cycling_time] at h
  split_ifs at h with hc
  have h' := Option.some.inj h
  subst h'
  refine ⟨rfl, pyInt (d / 15 * 60), rfl, ?_⟩
  have hd : (0 : ℚ) ≤ d := (not_le.mp hc).le
  exact pyInt_nonneg (mul_nonneg (div_nonneg hd (by norm_num)) (by norm_num))

theorem driving_some {d : ℚ} {r : Route} (h : calculate_driving_time d = some r) :
    r.mode = "driving" ∧ ∃ n : ℤ, r.duration_minutes = some n ∧ 0 ≤ n := by
  rw [calculate_driving_time] at h
  split_ifs at h with hc
  have h' := Option.some.inj h
  subst h'
  refine ⟨rfl, pyInt (d / 30 * 60), rfl, ?_⟩
  have hd : (0 : ℚ) ≤ d := (not_le.mp hc).le
  exact pyInt_nonneg (mul_nonneg (div_nonneg hd (by norm_num)) (by norm_num))

theorem transit_some {d : ℚ} {r : Route}
    (h : calculate_public_transit_route d = some r) :
    r.mode = "public_transit" ∧ ∃ n : ℤ, r.duration_minutes = some n ∧ 0 ≤ n := by
  rw [calculate_public_transit_route] at h
  split_ifs at h with hc
  unfold estimate_public_transit at h
  have hd : (0 : ℚ) ≤ d := (not_le.mp hc).le
  have h60 : (0 : ℚ) ≤ 60 := by norm_num
  split_ifs at h with h2 h5 h15
  · have h' := Option.some.inj h
    subst h'
    refine ⟨rfl, pyInt (d / 20 * 60) + 5, rfl, ?_⟩
    have hnn : 0 ≤ pyInt (d / 20 * 60) :=
      pyInt_nonneg (mul_nonneg (div_nonneg hd (by norm_num)) h60)
    linarith
  · have h' := Option.some.inj h
    subst h'
    refine ⟨rfl, pyInt (d / 25 * 60) + 8, rfl, ?_⟩
    have hnn : 0 ≤ pyInt (d / 25 * 60) :=
      pyInt_nonneg (mul_nonneg (div_nonneg hd (by norm_num)) h60)
    linarith
  · have h' := Option.some.inj h
    subst h'
    refine ⟨rfl, pyInt (d / 40 * 60) + 10, rfl, ?_⟩
    have hnn : 0 ≤ pyInt (d / 40 * 60) :=
      pyInt_nonneg (mul_nonneg (div_nonneg hd (by norm_num)) h60)
    linarith

theorem mem_walkPart {d : ℚ} {r : Route} (h : r ∈ walkPart d) :
    calculate_walking_time d = some r := by
  unfold walkPart at h
  rcases hw : calculate_walking_time d with _ | w <;> rw [hw] at h
  · simp at h
  · dsimp only at h
    rcases hwd : w.duration_minutes with _ | n <;> rw [hwd] at h
    · simp at h
    · dsimp only at h
      split_ifs at h
      · have h' := List.mem_singleton.mp h
        subst h'
        rfl
      · simp at h

theorem mem_cyclePart {d : ℚ} {r : Route} (h : r ∈ cyclePart d) :
    calculate_cycling_time d = some r := by
  unfold cyclePart at h
  rcases hw : calculate_cycling_time d with _ | c <;> rw [hw] at h
  · simp at h
  · dsimp only at h
    rcases hwd : c.duration_minutes with _ | n <;> rw [hwd] at h
    · simp at h
    · dsimp only at h
      split_ifs at h
      · have h' := List.mem_singleton.mp h
        subst h'
        rfl
      · simp at h

theorem mem_transitPart {d : ℚ} {r : Route} (h : r ∈ transitPart d) :
    calculate_public_transit_route d = some r := by
  unfold transitPart at h
  rcases hw : calculate_public_transit_route d with _ | t <;> rw [hw] at h
  · simp at h
  · dsimp only at h
    have h' := List.mem_singleton.mp h
    subst h'
    rfl

theorem mem_drivePart {d : ℚ} {r : Route} (h : r ∈ drivePart d) :
    calculate_driving_time d = some r := by
  unfold drivePart at h
  rcases hw : calculate_driving_time d with _ | dr <;> rw [hw] at h
  · simp at h
  · dsimp only at h
    have h' := List.mem_singleton.mp h
    subst h'
    rfl

theorem mem_busPart {incl : Bool} {info : Option BusInfo} {r : Route}
    (h : r ∈ busPart incl info) :
    ∃ i, incl = true ∧ info = some i ∧ r = schoolBusRoute i := by
  unfold busPart at h
  split_ifs at h with hincl
  · rcases info with _ | i
    · simp at h
    · have h' := List.mem_singleton.mp h
      exact ⟨i, hincl, rfl, h'⟩
  · simp at h

/-- Every route in the non-school-bus candidate lists has a mode different
from `"school_bus"` and carries a non-negative duration. -/
theorem mem_regular_parts {d : ℚ} {r : Route}
    (h : r ∈ walkPart d ++ cyclePart d ++ transitPart d ++ drivePart d) :
    r.mode ≠ "school_bus" ∧ ∃ n : ℤ, r.duration_minutes = some n ∧ 0 ≤ n := by
  simp only [List.mem_append] at h
  rcases h with ((hw | hc) | ht) | hdr
  · obtain ⟨hm, hd⟩ := walking_some (mem_walkPart hw)
    exact ⟨by rw [hm]; decide, hd⟩
  · obtain ⟨hm, hd⟩ := cycling_some (mem_cyclePart hc)
    exact ⟨by rw [hm]; decide, hd⟩
  · obtain ⟨hm, hd⟩ := transit_some (mem_transitPart ht)
    exact ⟨by rw [hm]; decide, hd⟩
  · obtain ⟨hm, hd⟩ := driving_some (mem_drivePart hdr)
    exact ⟨by rw [hm]; decide, hd⟩

/-- `calculate_all_routes` is the sorted regular candidates followed by the
school-bus entries. -/
theorem calculate_all_routes_decomp (d : ℚ) (incl : Bool) (info : Option BusInfo) :
    calculate_all_routes d incl info =
      List.insertionSort routeLE
        (walkPart d ++ cyclePart d ++ transitPart d ++ drivePart d) ++
      busPart incl info := by
  have hbus_modes : ∀ r ∈ busPart incl info, r.mode = "school_bus" := by
    intro r hr
    obtain ⟨i, _, _, rfl⟩ := mem_busPart hr
    rfl
  have h1 : (walkPart d ++ cyclePart d ++ transitPart d ++ drivePart d).filter
      (fun r => r.mode ≠ "school_bus") =
      walkPart d ++ cyclePart d ++ transitPart d ++ drivePart d :=
    List.filter_eq_self.mpr (fun a ha => by
      simpa using (mem_regular_parts ha).1)
  have h2 : (busPart incl info).filter (fun r => r.mode ≠ "school_bus") = [] :=
    List.filter_eq_nil_iff.mpr (fun a ha => by
      simpa using hbus_modes a ha)
  have h3 : (walkPart d ++ cyclePart d ++ transitPart d ++ drivePart d).filter
      (fun r => r.mode = "school_bus") = [] :=
    List.filter_eq_nil_iff.mpr (fun a ha => by
      simpa using (mem_regular_parts ha).1)
  have h4 : (busPart incl info).filter (fun r => r.mode = "school_bus") =
      busPart incl info :=
    List.filter_eq_self.mpr (fun a ha => by
      simpa using hbus_modes a ha)
  simp only [calculate_all_routes, pre_routes]
  rw [List.filter_append (walkPart d ++ cyclePart d ++ transitPart d ++ drivePart d)
      (busPart incl info),
    List.filter_append (walkPart d ++ cyclePart d ++ transitPart d ++ drivePart d)
      (busPart incl info),
    h1, h2, h3, h4, List.append_nil, List.nil_append]

/-- C6: in every aggregated route list the non-school-bus entries are sorted
ascending by duration, and a school-bus entry is always the last element. -/
theorem routes_sorted_bus_last (d : ℚ) (incl : Bool) (info : Option BusInfo) :
    List.Sorted routeLE
      ((calculate_all_routes d incl info).filter
        (fun r => r.mode ≠ "school_bus")) ∧
    ∀ r ∈ calculate_all_routes d incl info, r.mode = "school_bus" →
      (calculate_all_routes d incl info).getLast? = some r := by
  have hperm := List.perm_insertionSort routeLE
    (walkPart d ++ cyclePart d ++ transitPart d ++ drivePart d)
  have hsorted_mem : ∀ r ∈ List.insertionSort routeLE
      (walkPart d ++ cyclePart d ++ transitPart d ++ drivePart d),
      r.mode ≠ "school_bus" := by
    intro r hr
    exact (mem_regular_parts (hperm.mem_iff.mp hr)).1
  constructor
  · rw [calculate_all_routes_decomp, List.filter_append,
      List.filter_eq_self.mpr (fun a ha => by simpa using hsorted_mem a ha),
      List.filter_eq_nil_iff.mpr (fun a ha => by
        obtain ⟨i, _, _, rfl⟩ := mem_busPart ha
        simp [schoolBusRoute]),
      List.append_nil]
    exact List.sorted_insertionSort routeLE _
  · intro r hr hbus
    rw [calculate_all_routes_decomp] at hr
    rcases List.mem_append.mp hr with h1 | h1
    · exact absurd hbus (hsorted_mem r h1)
    · obtain ⟨i, hincl, hinfo, rfl⟩ := mem_busPart h1
      have hb : busPart incl info = [schoolBusRoute i] := by
        rw [busPart.eq_def, hincl, hinfo]
        rfl
      rw [calculate_all_routes_decomp, hb, List.getLast?_concat]

/-- C6 witness: the ordering theorem applied at distance 3 km with a school
bus configured. -/
theorem routes_sorted_bus_last_witness :
    List.Sorted routeLE
      ((calculate_all_routes 3 true (some sampleBusInfo)).filter
        (fun r => r.mode ≠ "school_bus")) ∧
    (calculate_all_routes 3 true (some sampleBusInfo)).getLast? =
      some (schoolBusRoute sampleBusInfo) := by
  refine ⟨(routes_sorted_bus_last 3 true (some sampleBusInfo)).1, ?_⟩
  refine (routes_sorted_bus_last 3 true (some sampleBusInfo)).2
    (schoolBusRoute sampleBusInfo) ?_ rfl
  rw [calculate_all_routes_decomp]
  refine List.mem_append.mpr (Or.inr ?_)
  simp [busPart]

theorem attach_morning_mode (r : Route) : (attach_morning r).mode = r.mode := by
  unfold attach_morning
  rcases h : r.duration_minutes with _ | n
  · rfl
  · dsimp only
    split_ifs with hm <;> rfl

theorem attach_morning_fields {r0 : Route} {n : ℤ}
    (hn : r0.duration_minutes = some n) (hm : r0.mode ≠ "school_bus") :
    (attach_morning r0).duration_minutes = some n ∧
    (attach_morning r0).morning_commute_minutes =
      some (calculate_morning_commute_time n none) := by
  unfold attach_morning
  rw [hn]
  dsimp only
  rw [if_pos hm]
  exact ⟨rfl, rfl⟩

/-- With no departure time the hour is 8 (rush hour), and
`int(n · 1.25) ≥ n` for every non-negative duration. -/
theorem commute_ge {n : ℤ} (hn : 0 ≤ n) :
    n ≤ calculate_morning_commute_time n none := by
  rw [calculate_morning_commute_time]
  dsimp only [Option.getD]
  rw [if_pos (by norm_num : 7 ≤ 8 ∧ 8 ≤ 9)]
  have hq : (0 : ℚ) ≤ (n : ℚ) * (5 / 4) :=
    mul_nonneg (by exact_mod_cast hn) (by norm_num)
  rw [pyInt_of_nonneg hq]
  refine Int.le_floor.mpr ?_
  have hn' : (0 : ℚ) ≤ (n : ℚ) := by exact_mod_cast hn
  linarith

/-- C10: in the aggregated output every non-school-bus route carries a
morning commute time at least as large as its duration. -/
theorem morning_commute_never_shortens (d : ℚ) (incl : Bool)
    (info : Option BusInfo) :
    ∀ r ∈ get_transportation_for_school d incl info, r.mode ≠ "school_bus" →
      ∃ n m : ℤ, r.duration_minutes = some n ∧
        r.morning_commute_minutes = some m ∧ n ≤ m := by
  intro r hr hmode
  simp only [get_transportation_for_school] at hr
  obtain ⟨r0, hr0, rfl⟩ := List.mem_map.mp hr
  have hmode0 : r0.mode ≠ "school_bus" := by
    rwa [attach_morning_mode] at hmode
  have hdur : ∃ n : ℤ, r0.duration_minutes = some n ∧ 0 ≤ n := by
    rw [calculate_all_routes_decomp] at hr0
    rcases List.mem_append.mp hr0 with h1 | h1
    · exact (mem_regular_parts
        ((List.perm_insertionSort routeLE _).mem_iff.mp h1)).2
    · obtain ⟨i, _, _, rfl⟩ := mem_busPart h1
      exact absurd rfl hmode0
  obtain ⟨n, hn, hn0⟩ := hdur
  obtain ⟨hdur', hmorn⟩ := attach_morning_fields hn hmode0
  exact ⟨n, calculate_morning_commute_time n none, hdur', hmorn, commute_ge hn0⟩

/-- C10 witness: the theorem applied to the driving route at 0.5 km. -/
theorem morning_commute_never_shortens_witness :
    ∃ n m : ℤ,
      (attach_morning driveHalf).duration_minutes = some n ∧
      (attach_morning driveHalf).morning_commute_minutes = some m ∧ n ≤ m := by
  have hdr : calculate_driving_time (1 / 2) = some driveHalf := by
    rw [calculate_driving_time, if_neg (by norm_num : ¬((1 : ℚ) / 2 ≤ 0))]
    rfl
  refine morning_commute_never_shortens (1 / 2) false none
    (attach_morning driveHalf) ?_ ?_
  · simp only [get_transportation_for_school]
    refine List.mem_map_of_mem attach_morning ?_
    rw [calculate_all_routes_decomp]
    refine List.mem_append.mpr (Or.inl ?_)
    refine (List.perm_insertionSort routeLE _).mem_iff.mpr ?_
    refine List.mem_append.mpr (Or.inr ?_)
    unfold drivePart
    rw [hdr]
    exact List.mem_singleton.mpr rfl
  · rw [attach_morning_mode]
    decide

/-- C7 counterexample: the candidate at latitude 60, longitude 180 is within
6680 km of the center (60, 0) — the distance is 6371·π/3 ≈ 6670.6 km — but
falls outside the bounding box, whose longitude half-width is
6680/55.5 ≈ 120.4 degrees.  The pre-filter excludes a candidate at the same
latitude within the radius. -/
theorem bounding_box_false_negative_cex :
    haversine_distance 60 0 60 180 ≤ 6680 ∧
    ¬ in_bounding_box (calculate_bounding_box 60 0 6680) 60 180 := by
  have h60 : radians 60 = Real.pi / 3 := by
    unfold radians
    ring
  have h0 : radians 0 = 0 := by
    unfold radians
    ring
  have h180 : radians 180 = Real.pi := by
    unfold radians
    ring
  have ha : Real.sin ((radians 60 - radians 60) / 2) ^ 2 +
      Real.cos (radians 60) * Real.cos (radians 60) *
        Real.sin ((radians 180 - radians 0) / 2) ^ 2 = 1 / 4 := by
    rw [h60, h0, h180, sub_self, zero_div, Real.sin_zero, sub_zero,
      Real.sin_pi_div_two, Real.cos_pi_div_three]
    norm_num
  have hs1 : Real.sqrt (1 / 4) = 1 / 2 := by
    rw [show (1 / 4 : ℝ) = (1 / 2) ^ 2 by norm_num,
      Real.sqrt_sq (by norm_num : (0 : ℝ) ≤ 1 / 2)]
  have hs3 : Real.sqrt (1 - 1 / 4) = Real.sqrt 3 / 2 := by
    rw [show (1 - 1 / 4 : ℝ) = (Real.sqrt 3 / 2) ^ 2 by
        rw [div_pow, Real.sq_sqrt (by norm_num : (0 : ℝ) ≤ 3)]
        norm_num,
      Real.sqrt_sq (by positivity)]
  have harctan : atan2 (1 / 2) (Real.sqrt 3 / 2) = Real.pi / 6 := by
    unfold atan2
    rw [if_pos (show (0 : ℝ) < Real.sqrt 3 / 2 by positivity)]
    have ht : Real.tan (Real.pi / 6) = (1 / 2) / (Real.sqrt 3 / 2) := by
      rw [Real.tan_eq_sin_div_cos, Real.sin_pi_div_six, Real.cos_pi_div_six]
    rw [show ((1 : ℝ) / 2) / (Real.sqrt 3 / 2) = Real.tan (Real.pi / 6) from ht.symm]
    exact Real.arctan_tan (by linarith [Real.pi_pos]) (by linarith [Real.pi_pos])
  have hval : haversine_distance 60 0 60 180 = 6371 * Real.pi / 3 := by
    simp only [haversine_distance]
    rw [ha, hs1, hs3, harctan]
    ring
  constructor
  · rw [hval]
    nlinarith [Real.pi_lt_d6]
  · intro h
    have hmax : (180 : ℝ) ≤ 0 + 6680 * (1 / (111 * Real.cos (radians 60))) := by
      simpa [calculate_bounding_box, in_bounding_box] using h.2.2.2
    rw [h60, Real.cos_pi_div_three] at hmax
    norm_num at hmax

/-- On the equator the haversine distance is exactly proportional to the
absolute longitude difference (for differences of at most 180 degrees). -/
theorem haversine_equator (lon1 lon2 : ℝ) (h : |lon1 - lon2| ≤ 180) :
    haversine_distance 0 lon1 0 lon2 =
      6371 * (|lon2 - lon1| * Real.pi / 180) := by
  have h0 : radians 0 = 0 := by
    unfold radians
    ring
  set t := |lon2 - lon1| * Real.pi / 360 with ht
  have habs : |lon2 - lon1| ≤ 180 := by rwa [abs_sub_comm] at h
  have ht0 : 0 ≤ t := by positivity
  have htpi : t ≤ Real.pi / 2 := by
    rw [ht]
    calc |lon2 - lon1| * Real.pi / 360 ≤ 180 * Real.pi / 360 := by
          have := Real.pi_nonneg
          gcongr
      _ = Real.pi / 2 := by ring
  have hsin_sq : Real.sin ((radians lon2 - radians lon1) / 2) ^ 2 =
      Real.sin t ^ 2 := by
    have hx : (radians lon2 - radians lon1) / 2 = (lon2 - lon1) * Real.pi / 360 := by
      unfold radians
      ring
    rw [hx]
    rcases abs_cases (lon2 - lon1) with ⟨heq, _⟩ | ⟨heq, _⟩
    · rw [ht, heq]
    · rw [ht, heq, show -(lon2 - lon1) * Real.pi / 360 =
        -((lon2 - lon1) * Real.pi / 360) by ring, Real.sin_neg]
      ring
  have hst : Real.sqrt (Real.sin t ^ 2) = Real.sin t :=
    Real.sqrt_sq (Real.sin_nonneg_of_nonneg_of_le_pi ht0
      (le_trans htpi (by linarith [Real.pi_pos])))
  have hct : Real.sqrt (1 - Real.sin t ^ 2) = Real.cos t := by
    rw [← Real.cos_sq']
    exact Real.sqrt_sq (Real.cos_nonneg_of_mem_Icc ⟨by linarith, htpi⟩)
  have hatan : atan2 (Real.sin t) (Real.cos t) = t := by
    have hcnonneg : 0 ≤ Real.cos t :=
      Real.cos_nonneg_of_mem_Icc ⟨by linarith, htpi⟩
    rcases eq_or_lt_of_le hcnonneg with hc0 | hcpos
    · -- cos t = 0, so t = π/2 and atan2 1 0 = π/2
      have htt : t = Real.pi / 2 := by
        rcases lt_or_eq_of_le htpi with hlt | heq
        · exfalso
          have := Real.cos_pos_of_mem_Ioo
            (⟨by linarith [Real.pi_pos], hlt⟩ : t ∈ Set.Ioo (-(Real.pi / 2)) (Real.pi / 2))
          rw [← hc0] at this
          exact lt_irrefl 0 this
        · exact heq
      rw [htt, Real.sin_pi_div_two, Real.cos_pi_div_two]
      unfold atan2
      rw [if_neg (lt_irrefl 0), if_neg (by simp), if_neg (by simp),
        if_pos one_pos]
    · unfold atan2
      rw [if_pos hcpos, ← Real.tan_eq_sin_div_cos]
      have htlt : t < Real.pi / 2 := by
        rcases lt_or_eq_of_le htpi with hlt | heq
        · exact hlt
        · exfalso
          rw [heq, Real.cos_pi_div_two] at hcpos
          exact lt_irrefl 0 hcpos
      exact Real.arctan_tan (by linarith [Real.pi_pos]) htlt
  simp only [haversine_distance]
  rw [h0, sub_self, zero_div, Real.sin_zero, Real.cos_zero]
  rw [show (0 : ℝ) ^ 2 + 1 * 1 * Real.sin ((radians lon2 - radians lon1) / 2) ^ 2 =
    Real.sin ((radians lon2 - radians lon1) / 2) ^ 2 by ring]
  rw [hsin_sq, hst, hct, hatan, ht]
  ring

/-- C7 (amended): for a center on the equator, every candidate at the same
latitude whose longitude is within 180 degrees of the center's and whose
haversine distance is at most `radius_km` lies inside the bounding box. -/
theorem bounding_box_no_false_negative_equator
    (lon1 lon2 r : ℝ) (hr : 0 < r)
    (hdiff : |lon1 - lon2| ≤ 180)
    (hdist : haversine_distance 0 lon1 0 lon2 ≤ r) :
    in_bounding_box (calculate_bounding_box 0 lon1 r) 0 lon2 := by
  rw [haversine_equator lon1 lon2 hdiff] at hdist
  have hπ := Real.pi_gt_d6
  have hA : 0 ≤ |lon2 - lon1| := abs_nonneg _
  have hc : (0 : ℝ) ≤ 6371 * Real.pi / 180 - 111 := by linarith
  have hprod := mul_nonneg hA hc
  have habs : |lon2 - lon1| ≤ r / 111 := by
    rw [le_div_iff₀ (by norm_num : (0 : ℝ) < 111)]
    nlinarith [hdist, hprod]
  obtain ⟨hlo, hhi⟩ := abs_le.mp habs
  have h0 : radians 0 = 0 := by
    unfold radians
    ring
  simp only [calculate_bounding_box, in_bounding_box]
  rw [h0, Real.cos_zero]
  refine ⟨by nlinarith, by nlinarith, by nlinarith, by nlinarith⟩

/-- C7 witness: the amended theorem applied to a candidate at the center
itself (equator, distance 0 ≤ 1 km). -/
theorem bounding_box_no_false_negative_equator_witness :
    in_bounding_box (calculate_bounding_box 0 0 1) 0 0 := by
  refine bounding_box_no_false_negative_equator 0 0 1 one_pos (by norm_num) ?_
  rw [haversine_equator 0 0 (by norm_num)]
  norm_num

theorem condFilter_subset (cond : Bool) (q : School → Bool) (l : List School) :
    ∀ s ∈ condFilter cond q l, s ∈ l := by
  intro s hs
  unfold condFilter at hs
  split_ifs at hs
  · exact List.mem_of_mem_filter hs
  · exact hs

theorem applyFilters_subset (p : SchoolSearchParams) (l : List School) :
    ∀ s ∈ applyFilters p l, s ∈ l := by
  intro s hs
  simp only [applyFilters] at hs
  exact condFilter_subset _ _ _ s
    (condFilter_subset _ _ _ s
      (condFilter_subset _ _ _ s
        (condFilter_subset _ _ _ s hs)))

open Classical in
/-- C1: every result of the proximity search comes from a candidate whose
exact haversine distance to the center is at most `radius_km`, the output is
sorted ascending by `distance_km`, and its length never exceeds the limit. -/
theorem search_proximity_spec (candidates : List School)
    (params : SchoolSearchParams) (lat lon radius_km : ℝ)
    (_hrad : 0 < radius_km) (_hlim : 1 ≤ params.limit) :
    (∀ res ∈ search_schools_by_proximity candidates params lat lon radius_km,
      ∃ s, s ∈ candidates ∧ res = scored_result lat lon s ∧
        haversine_distance lat lon s.latitude s.longitude ≤ radius_km) ∧
    List.Sorted resultLE
      (search_schools_by_proximity candidates params lat lon radius_km) ∧
    (search_schools_by_proximity candidates params lat lon radius_km).length ≤
      params.limit := by
  have hout : search_schools_by_proximity candidates params lat lon radius_km =
      (List.insertionSort resultLE
        ((((applyFilters params candidates).filter
            (fun s => decide (in_bounding_box
              (calculate_bounding_box lat lon radius_km) s.latitude s.longitude))).filter
            (fun s => decide (haversine_distance lat lon s.latitude s.longitude ≤
              radius_km))).map
          (scored_result lat lon))).take params.limit := rfl
  refine ⟨?_, ?_, ?_⟩
  · intro res hres
    rw [hout] at hres
    have h1 := List.mem_of_mem_take hres
    have h2 := (List.perm_insertionSort resultLE _).mem_iff.mp h1
    obtain ⟨s, hsmem, rfl⟩ := List.mem_map.mp h2
    obtain ⟨hsboxed, hsdist⟩ := List.mem_filter.mp hsmem
    have hcand : s ∈ candidates :=
      applyFilters_subset params candidates s (List.mem_of_mem_filter hsboxed)
    exact ⟨s, hcand, rfl, of_decide_eq_true hsdist⟩
  · rw [hout]
    exact List.Pairwise.sublist (List.take_sublist _ _)
      (List.sorted_insertionSort resultLE _)
  · rw [hout]
    exact List.length_take_le _ _

/-- C1 witness: the search theorem applied to one candidate at the center
with radius 1 km and limit 5. -/
theorem search_proximity_spec_witness :
    (∀ res ∈ search_schools_by_proximity [sampleSchool] sampleParams 0 0 1,
      ∃ s, s ∈ [sampleSchool] ∧ res = scored_result 0 0 s ∧
        haversine_distance 0 0 s.latitude s.longitude ≤ 1) ∧
    List.Sorted resultLE
      (search_schools_by_proximity [sampleSchool] sampleParams 0 0 1) ∧
    (search_schools_by_proximity [sampleSchool] sampleParams 0 0 1).length ≤
      sampleParams.limit :=
  search_proximity_spec [sampleSchool] sampleParams 0 0 1 one_pos (by decide)
